import Mathlib

/-!
Verification development for the real-time chess session core
(`server/src/socket/chess.state.ts` and the socket gateway).

The chess rules engine (chess.js) is out of scope of the specification and is
treated as an opaque library: a `Chess` value records the observables the
server consults (side to move, terminal predicates, FEN string), and the
`move` operation is a parameter of the move handler.

JavaScript `Map`s are modelled as insertion-ordered association lists with
`Map.set` / `Map.get` / `Map.has` / `Map.delete` semantics.
-/

namespace Knight

/-- A chess color, `"w"` or `"b"`. -/
inductive Color
  | w
  | b
deriving DecidableEq, Repr

/-- The side not to move, used for the checkmate winner. -/
def Color.other : Color → Color
  | .w => .b
  | .b => .w

/-- A seated player record `{userId, username}`. -/
structure Player where
  userId : String
  username : String
deriving DecidableEq, Repr

/-- Observables of a chess.js instance the server consults.  The rules engine
itself is an external library; these fields record what its query methods
return on the current position. -/
structure Chess where
  fen : String
  turn : Color
  checkmate : Bool
  stalemate : Bool
  insufficientMaterial : Bool
  threefoldRepetition : Bool
  draw : Bool
  check : Bool
deriving DecidableEq, Repr

/-- `new Chess()`: the standard starting position, white to move, no terminal
condition holds. -/
def Chess.initial : Chess :=
  { fen := "rnbqkbnr/pppppppp/8/8/8/8/PPPPPPPP/RNBQKBNR w KQkq - 0 1"
    turn := .w
    checkmate := false
    stalemate := false
    insufficientMaterial := false
    threefoldRepetition := false
    draw := false
    check := false }

/-- The per-game clock record `clockMs : { w, b }`, in milliseconds. -/
structure ClockMs where
  w : Int
  b : Int
deriving DecidableEq, Repr

/-- The `Room["game"]` record of `chess.types.ts`. -/
structure Game where
  chess : Chess
  whiteUserId : String
  blackUserId : String
  clockMs : ClockMs
  lastTickAt : Option Int
  agreedDraw : Bool
deriving DecidableEq, Repr

/-! ### Insertion-ordered association lists (JavaScript `Map`) -/

/-- `Map.get`: value of the first (hence only) entry with the given key. -/
def alGet (k : String) : List (String × α) → Option α
  | [] => none
  | (k', v) :: rest => if k' = k then some v else alGet k rest

/-- `Map.has`. -/
def alHas (k : String) (l : List (String × α)) : Bool :=
  (alGet k l).isSome

/-- `Map.set`: update the existing entry in place (preserving insertion
order) or append a new one. -/
def alSet (k : String) (v : α) : List (String × α) → List (String × α)
  | [] => [(k, v)]
  | (k', v') :: rest => if k' = k then (k, v) :: rest else (k', v') :: alSet k v rest

/-- `Map.delete`. -/
def alDelete (k : String) : List (String × α) → List (String × α)
  | [] => []
  | (k', v') :: rest => if k' = k then rest else (k', v') :: alDelete k rest

/-- `Array.from(map.values())`. -/
def alValues (l : List (String × α)) : List α :=
  l.map Prod.snd

/-- The `Room` record: id, seated players (insertion-ordered map keyed by
userId), optional game. -/
structure Room where
  id : String
  players : List (String × Player)
  game : Option Game
deriving DecidableEq, Repr

/-- `INITIAL_CLOCK_MS = 3 * 60 * 1000`. -/
def INITIAL_CLOCK_MS : Int := 3 * 60 * 1000

/-- `applyActiveClock`: fold the wall-clock time elapsed since `lastTickAt`
into the active side's counter, flooring at 0. -/
def applyActiveClock (now : Int) (game : Game) : Game :=
  match game.lastTickAt with
  | none => game
  | some tick =>
    let elapsed := now - tick
    if elapsed ≤ 0 then game
    else
      let c := game.clockMs
      let c' :=
        match game.chess.turn with
        | .w => { c with w := max 0 (c.w - elapsed) }
        | .b => { c with b := max 0 (c.b - elapsed) }
      { game with clockMs := c', lastTickAt := some now }

/-- Snapshot status strings of `GameSnapshot["status"]`. -/
inductive GameStatus
  | active
  | checkmate
  | stalemate
  | draw
  | insufficientMaterial
  | threefoldRepetition
  | timeout
deriving DecidableEq, Repr

/-- The status / winner decision of `getGameSnapshot` (the if/else chain of
`chess.state.ts`, lines 96-115), evaluated on the clock-sampled game. -/
def statusOf (g : Game) : GameStatus × Option Color :=
  if g.clockMs.w ≤ 0 then (.timeout, some .b)
  else if g.clockMs.b ≤ 0 then (.timeout, some .w)
  else if g.agreedDraw then (.draw, none)
  else if g.chess.checkmate then (.checkmate, some (if g.chess.turn = .w then .b else .w))
  else if g.chess.stalemate then (.stalemate, none)
  else if g.chess.insufficientMaterial then (.insufficientMaterial, none)
  else if g.chess.threefoldRepetition then (.threefoldRepetition, none)
  else if g.chess.draw then (.draw, none)
  else (.active, none)

/-- The `GameSnapshot` record. -/
structure GameSnapshot where
  roomId : String
  fen : String
  turn : Color
  isCheck : Bool
  status : GameStatus
  winnerColor : Option Color
  clockMs : ClockMs
  whitePlayer : Player
  blackPlayer : Player
deriving DecidableEq, Repr

/-- The body of `getGameSnapshot` once `room.game` is known to exist: sample
the clock in place, look the seated players up, decide the status, and null
`lastTickAt` when terminal.  Returns the mutated game together with the
snapshot (or `none` when a seated player is missing from the room). -/
def snapshotGame (now : Int) (room : Room) (g0 : Game) : Game × Option GameSnapshot :=
  let g1 := applyActiveClock now g0
  match alGet g1.whiteUserId room.players, alGet g1.blackUserId room.players with
  | some white, some black =>
    let sw := statusOf g1
    let g2 := if sw.1 ≠ GameStatus.active then { g1 with lastTickAt := none } else g1
    (g2,
      some
        { roomId := room.id
          fen := g1.chess.fen
          turn := g1.chess.turn
          isCheck := g1.chess.check
          status := sw.1
          winnerColor := sw.2
          clockMs := g1.clockMs
          whitePlayer := white
          blackPlayer := black })
  | _, _ => (g1, none)

/-- `getGameSnapshot`: `null` when the room has no game; otherwise sample and
snapshot.  The first component is the room after the in-place mutations. -/
def getGameSnapshotM (now : Int) (room : Room) : Room × Option GameSnapshot :=
  match room.game with
  | none => (room, none)
  | some g0 =>
    let gs := snapshotGame now room g0
    ({ room with game := some gs.1 }, gs.2)

/-- Room status strings of `RoomState["status"]`. -/
inductive RoomStatus
  | waiting
  | ready
  | playing
deriving DecidableEq, Repr

/-- A `PlayerState` entry of `RoomState.players`. -/
structure PlayerState where
  userId : String
  username : String
  online : Bool
  color : Option Color
deriving DecidableEq, Repr

/-- The `RoomState` record. -/
structure RoomState where
  roomId : String
  players : List PlayerState
  status : RoomStatus
deriving DecidableEq, Repr

/-- The `colorByUserId` map of `getRoomState`.  It is built as
`new Map([[whiteUserId,"w"],[blackUserId,"b"]])`, so on a (degenerate) key
collision the later `"b"` entry wins; the black test therefore comes first. -/
def colorByUserId (room : Room) (uid : String) : Option Color :=
  match room.game with
  | none => none
  | some g =>
    if uid = g.blackUserId then some .b
    else if uid = g.whiteUserId then some .w
    else none

/-- `getRoomState`.  `online` stands for `isUserOnline`, i.e. whether the
user's socket set is non-empty. -/
def getRoomState (online : String → Bool) (room : Room) : RoomState :=
  let players := (alValues room.players).map fun p =>
    { userId := p.userId
      username := p.username
      online := online p.userId
      color := colorByUserId room p.userId : PlayerState }
  { roomId := room.id
    players := players
    status :=
      match room.game with
      | some _ => .playing
      | none => if players.length = 2 then .ready else .waiting }

/-! ### Room ids (`normalizeRoomId`) -/

/-- JavaScript `String.prototype.trim` on the character list. -/
def jsTrimList (l : List Char) : List Char :=
  ((l.dropWhile Char.isWhitespace).reverse.dropWhile Char.isWhitespace).reverse

/-- JavaScript `String.prototype.trim`. -/
def jsTrim (s : String) : String :=
  ⟨jsTrimList s.data⟩

/-- JavaScript `String.prototype.toUpperCase` (ASCII, which covers every
string the server feeds it). -/
def jsToUpper (s : String) : String :=
  ⟨s.data.map Char.toUpper⟩

/-- JavaScript `String.prototype.toLowerCase` (ASCII). -/
def jsToLower (s : String) : String :=
  ⟨s.data.map Char.toLower⟩

/-- `randomUUID().split("-")[0]`: the UUID text up to the first dash. -/
def uuidFirstSegment (uuid : String) : String :=
  ⟨uuid.data.takeWhile (fun c => c ≠ '-')⟩

/-- A freshly generated room id: `randomUUID().split("-")[0].toUpperCase()`,
with the UUID drawn by the caller. -/
def genRoomId (uuid : String) : String :=
  jsToUpper (uuidFirstSegment uuid)

/-- `normalizeRoomId`: a caller seed with non-blank trim is trimmed and
upper-cased; otherwise a fresh id is derived from a random UUID. -/
def normalizeRoomId (uuid : String) (roomId : Option String) : String :=
  match roomId with
  | some rid => if jsTrim rid ≠ "" then jsToUpper (jsTrim rid) else genRoomId uuid
  | none => genRoomId uuid

/-! ### Gateway state, acks and emitted events -/

/-- The mutable module-level registries of `chess.state.ts` and the gateway:
`rooms`, `roomByUserId`, `rematchAcceptedByRoomId`, and the draw-offer sets.
The `drawPending` registry is modelled from the spec (§4.3.2 `pendingDraw`):
the draw handlers are declared in `ClientToServerEvents` and invoked by the
client but their server code is not in the sources. -/
structure ServerState where
  rooms : List (String × Room)
  roomByUserId : List (String × String)
  rematchAccepted : List (String × List String)
  drawPending : List (String × List String)
deriving DecidableEq, Repr

/-- An acknowledgment value: `{ok: true, data?}` or `{ok: false, error}`. -/
inductive Ack (α : Type)
  | ok (data : Option α)
  | err (error : String)
deriving DecidableEq, Repr

/-- The `MoveResult` record (the `by` field is named `mover` here because
`by` is reserved). -/
structure MoveResult where
  roomId : String
  fromSq : String
  toSq : String
  san : String
  fen : String
  turn : Color
  mover : Player
deriving DecidableEq, Repr

/-- A server-to-client emission.  Events addressed to a single user's socket
set carry that user's id. -/
inductive Emit
  | roomState (roomId : String) (state : RoomState)
  | gameState (roomId : String) (snap : GameSnapshot)
  | gameOver (roomId : String) (snap : GameSnapshot)
  | gameStart (roomId : String) (white black : Player) (fen : String) (turn : Color)
  | roomError (roomId : String) (message : String)
  | chessMove (roomId : String) (result : MoveResult)
  | rematchRequested (toUserId : String) (sender : Player)
  | rematchStatus (roomId : String) (status : String) (message : String) (who : Option Player)
  | drawRequested (toUserId : String) (sender : Player)
  | drawStatus (roomId : String) (status : String) (message : String) (who : Option Player)
  | inviteReceived (toUserId : String) (sender : Player) (roomId : String) (inviteLink : String)
deriving DecidableEq, Repr

/-- `broadcastRoomState`. -/
def broadcastRoomState (online : String → Bool) (st : ServerState) (roomId : String) :
    List Emit :=
  match alGet roomId st.rooms with
  | none => []
  | some room => [.roomState roomId (getRoomState online room)]

/-- `broadcastGameState`: recompute the snapshot (mutating the room), emit
`game:state`, and additionally `game:over` when terminal. -/
def broadcastGameStateM (now : Int) (st : ServerState) (roomId : String) :
    ServerState × List Emit :=
  match alGet roomId st.rooms with
  | none => (st, [])
  | some room =>
    let rs := getGameSnapshotM now room
    let st' := { st with rooms := alSet roomId rs.1 st.rooms }
    match rs.2 with
    | none => (st', [])
    | some s =>
      (st', [.gameState roomId s] ++ if s.status ≠ GameStatus.active then [.gameOver roomId s] else [])

/-- `maybeStartGame`: only when the room exists, has exactly 2 players and no
game.  `whiteIndex` is the value drawn by `randomInt(0, players.length)`. -/
def maybeStartGame (online : String → Bool) (now : Int) (whiteIndex : Nat)
    (st : ServerState) (roomId : String) : ServerState × List Emit :=
  match alGet roomId st.rooms with
  | none => (st, [])
  | some room =>
    if room.players.length ≠ 2 ∨ room.game.isSome then (st, [])
    else
      let players := alValues room.players
      match players.get? whiteIndex, players.get? (if whiteIndex = 0 then 1 else 0) with
      | some white, some black =>
        let g : Game :=
          { chess := Chess.initial
            whiteUserId := white.userId
            blackUserId := black.userId
            clockMs := { w := INITIAL_CLOCK_MS, b := INITIAL_CLOCK_MS }
            lastTickAt := some now
            agreedDraw := false }
        let room1 := { room with game := some g }
        let rs := getGameSnapshotM now room1
        let st' := { st with rooms := alSet roomId rs.1 st.rooms }
        match rs.2 with
        | none => (st', [])
        | some s =>
          (st',
            [.gameStart roomId s.whitePlayer s.blackPlayer s.fen s.turn, .gameState roomId s]
              ++ broadcastRoomState online st' roomId)
      | _, _ => (st, [])

/-- `leaveRoom`: drop the user from the room and the index, clear the game if
the user was seated, delete the room when empty, otherwise notify. -/
def leaveRoom (online : String → Bool) (st : ServerState) (userId : String)
    (reason : Option String) : ServerState × List Emit :=
  match alGet userId st.roomByUserId with
  | none => (st, [])
  | some roomId =>
    match alGet roomId st.rooms with
    | none => ({ st with roomByUserId := alDelete userId st.roomByUserId }, [])
    | some room =>
      let room1 := { room with players := alDelete userId room.players }
      let room2 :=
        match room1.game with
        | some g =>
          if g.whiteUserId = userId ∨ g.blackUserId = userId then
            { room1 with game := none }
          else room1
        | none => room1
      let st1 := { st with roomByUserId := alDelete userId st.roomByUserId }
      if room2.players.length = 0 then
        ({ st1 with rooms := alDelete roomId st1.rooms }, [])
      else
        let st2 := { st1 with rooms := alSet roomId room2 st1.rooms }
        let emits :=
          (match reason with
            | some msg => [Emit.roomError roomId msg]
            | none => []) ++ broadcastRoomState online st2 roomId
        (st2, emits)

/-! ### Event handlers

Each handler returns the new state, the list of emitted server-to-client
events, and the list of acknowledgment-callback invocations in order (each
`callback(x)` in the source appends one element). -/

/-- The `while (rooms.has(roomId))` retry loop of `room:create`: try the
candidate, then fresh UUID-derived ids in turn.  `none` means the supply of
modelled UUIDs ran out (the source would keep looping). -/
def freshRoomId (roomsMap : List (String × Room)) :
    String → List String → Option String
  | candidate, uuids =>
    if alHas candidate roomsMap then
      match uuids with
      | [] => none
      | u :: rest => freshRoomId roomsMap (genRoomId u) rest
    else some candidate

/-- The `room:create` handler.  `uuid0` backs the first `normalizeRoomId`
call, `uuids` the retries; `whiteIndex` is the random draw `maybeStartGame`
would use.  `none` models the (probability-zero) case of the retry loop not
terminating within the modelled UUID supply. -/
def roomCreate (online : String → Bool) (uuid0 : String) (uuids : List String)
    (now : Int) (whiteIndex : Nat) (st : ServerState) (userId username : String)
    (payload : Option String) :
    Option (ServerState × List Emit × List (Ack RoomState)) :=
  if alHas userId st.roomByUserId then some (st, [], [.err "You are already in a room"])
  else
    match freshRoomId st.rooms (normalizeRoomId uuid0 payload) uuids with
    | none => none
    | some roomId =>
      let room : Room := { id := roomId, players := [(userId, ⟨userId, username⟩)], game := none }
      let st1 :=
        { st with
            rooms := alSet roomId room st.rooms
            roomByUserId := alSet userId roomId st.roomByUserId }
      let state := getRoomState online room
      let r2 := maybeStartGame online now whiteIndex st1 roomId
      some (r2.1, [.roomState roomId state] ++ r2.2, [.ok (some state)])

/-- The `room:join` handler. -/
def roomJoin (online : String → Bool) (uuid0 : String) (now : Int) (whiteIndex : Nat)
    (st : ServerState) (userId username : String) (roomIdArg : String) :
    ServerState × List Emit × List (Ack RoomState) :=
  let nrid := normalizeRoomId uuid0 (some roomIdArg)
  match alGet nrid st.rooms with
  | none => (st, [], [.err "Room not found"])
  | some room =>
    let currentRoomId := alGet userId st.roomByUserId
    if currentRoomId.isSome ∧ currentRoomId ≠ some nrid then
      (st, [], [.err "Leave your current room first"])
    else if ¬ alHas userId room.players ∧ room.players.length ≥ 2 then
      (st, [], [.err "Room is full"])
    else
      let room1 := { room with players := alSet userId ⟨userId, username⟩ room.players }
      let st1 :=
        { st with
            rooms := alSet nrid room1 st.rooms
            roomByUserId := alSet userId nrid st.roomByUserId }
      let state := getRoomState online room1
      let r2 := maybeStartGame online now whiteIndex st1 nrid
      (r2.1, [.roomState nrid state] ++ r2.2, [.ok (some state)])

/-- The `room:state` handler. -/
def roomStateH (online : String → Bool) (st : ServerState) (userId : String) :
    ServerState × List Emit × List (Ack RoomState) :=
  match alGet userId st.roomByUserId with
  | none => (st, [], [.err "You are not in a room"])
  | some roomId =>
    match alGet roomId st.rooms with
    | none =>
      ({ st with roomByUserId := alDelete userId st.roomByUserId }, [],
        [.err "Room no longer exists"])
    | some room => (st, [], [.ok (some (getRoomState online room))])

/-- The `game:state` handler. -/
def gameStateH (now : Int) (st : ServerState) (userId : String) :
    ServerState × List Emit × List (Ack GameSnapshot) :=
  match alGet userId st.roomByUserId with
  | none => (st, [], [.err "You are not in a room"])
  | some roomId =>
    match alGet roomId st.rooms with
    | none =>
      ({ st with roomByUserId := alDelete userId st.roomByUserId }, [],
        [.err "Room no longer exists"])
    | some room =>
      let rs := getGameSnapshotM now room
      let st1 := { st with rooms := alSet roomId rs.1 st.rooms }
      match rs.2 with
      | none => (st1, [], [.err "Game not started"])
      | some s => (st1, [], [.ok (some s)])

/-- The `room:leave` handler (the gateway variant that first clears the
room's rematch-acceptance set). -/
def roomLeave (online : String → Bool) (st : ServerState) (userId username : String) :
    ServerState × List Emit × List (Ack Unit) :=
  if ¬ alHas userId st.roomByUserId then (st, [], [.err "You are not in a room"])
  else
    let st1 :=
      match alGet userId st.roomByUserId with
      | some roomId => { st with rematchAccepted := alDelete roomId st.rematchAccepted }
      | none => st
    let r := leaveRoom online st1 userId (some (username ++ " left the room"))
    (r.1, r.2, [.ok none])

/-- The outcome of `chess.move(...)` on the rules library: an exception, a
null result, or a new position with the move's SAN. -/
inductive MoveOutcome
  | thrown
  | null
  | legal (next : Chess) (san : String)

/-- The `chess:move` handler.  `moveImpl` is the opaque rules-library move
call, given the current position, lowercased trimmed squares and the optional
promotion piece. -/
def chessMove (moveImpl : Chess → String → String → Option String → MoveOutcome)
    (now : Int) (st : ServerState) (userId username : String)
    (payloadRoomId fromRaw toRaw : String) (promotion : Option String) :
    ServerState × List Emit × List (Ack MoveResult) :=
  match alGet userId st.roomByUserId with
  | none => (st, [], [.err "You are not in a room"])
  | some roomId =>
    if payloadRoomId ≠ roomId then (st, [], [.err "Invalid room"])
    else
      match alGet roomId st.rooms with
      | none => (st, [], [.err "Room not found"])
      | some room =>
        if ¬ alHas userId room.players then (st, [], [.err "Room not found"])
        else
          match room.game with
          | none => (st, [], [.err "Game not started"])
          | some g0 =>
            let gs := snapshotGame now room g0
            let g1 := gs.1
            let room1 := { room with game := some g1 }
            let st1 := { st with rooms := alSet roomId room1 st.rooms }
            match gs.2 with
            | none =>
              let r2 := broadcastGameStateM now st1 roomId
              (r2.1, r2.2, [.err "Game is already over"])
            | some snap =>
              if snap.status ≠ GameStatus.active then
                let r2 := broadcastGameStateM now st1 roomId
                (r2.1, r2.2, [.err "Game is already over"])
              else
                let playerColor : Option Color :=
                  if g1.whiteUserId = userId then some .w
                  else if g1.blackUserId = userId then some .b
                  else none
                match playerColor with
                | none => (st1, [], [.err "You are not a player in this game"])
                | some color =>
                  if g1.chess.turn ≠ color then (st1, [], [.err "Not your turn"])
                  else
                    let fromSq := jsToLower (jsTrim fromRaw)
                    let toSq := jsToLower (jsTrim toRaw)
                    if fromSq = "" ∨ toSq = "" then
                      (st1, [], [.err "Move must include from and to squares"])
                    else
                      match moveImpl g1.chess fromSq toSq promotion with
                      | .thrown => (st1, [], [.err "Illegal move"])
                      | .null => (st1, [], [.err "Illegal move"])
                      | .legal next san =>
                        let g2 := { g1 with chess := next, lastTickAt := some now }
                        let room2 := { room with game := some g2 }
                        let st2 := { st with rooms := alSet roomId room2 st.rooms }
                        let result : MoveResult :=
                          { roomId := roomId
                            fromSq := fromSq
                            toSq := toSq
                            san := san
                            fen := next.fen
                            turn := next.turn
                            mover := ⟨userId, username⟩ }
                        let r3 := broadcastGameStateM now st2 roomId
                        (r3.1, [.chessMove roomId result] ++ r3.2, [.ok (some result)])

/-- The `invite:send` handler.  `friend` is the social-graph answer for the
pair (the lookup is external I/O), `origin` the request's origin header. -/
def inviteSend (online : String → Bool) (friend : Bool) (origin : Option String)
    (uuid0 : String) (st : ServerState) (userId username : String)
    (toUserIdRaw : Option String) (roomIdArg : Option String) :
    ServerState × List Emit × List (Ack (String × String)) :=
  let toUserId := jsTrim (toUserIdRaw.getD "")
  if toUserId = "" then (st, [], [.err "Missing target user"])
  else if toUserId = userId then (st, [], [.err "You cannot invite yourself"])
  else
    let roomIdOpt :=
      match roomIdArg with
      | some rid => if rid ≠ "" then some (normalizeRoomId uuid0 (some rid)) else alGet userId st.roomByUserId
      | none => alGet userId st.roomByUserId
    match roomIdOpt with
    | none => (st, [], [.err "Create or join a room first"])
    | some roomId =>
      match alGet roomId st.rooms with
      | none => (st, [], [.err "You are not in that room"])
      | some room =>
        if ¬ alHas userId room.players then (st, [], [.err "You are not in that room"])
        else if ¬ friend then (st, [], [.err "You can only invite users from your friend list"])
        else if ¬ online toUserId then (st, [], [.err "Friend is offline"])
        else
          let inviteLink := (origin.getD "http://localhost:3000") ++ "/?room=" ++ roomId
          (st, [.inviteReceived toUserId ⟨userId, username⟩ roomId inviteLink],
            [.ok (some (roomId, inviteLink))])

/-- `getEndedGameRoom`: the room, provided it has a game whose (recomputed)
snapshot is terminal.  Snapshot recomputation mutates the stored room. -/
def getEndedGameRoomM (now : Int) (st : ServerState) (roomId : String) :
    ServerState × Option Room :=
  match alGet roomId st.rooms with
  | none => (st, none)
  | some room =>
    match room.game with
    | none => (st, none)
    | some g0 =>
      let gs := snapshotGame now room g0
      let room1 := { room with game := some gs.1 }
      let st1 := { st with rooms := alSet roomId room1 st.rooms }
      match gs.2 with
      | none => (st1, none)
      | some s => if s.status = GameStatus.active then (st1, none) else (st1, some room1)

/-- `startRematch`: clear the finished game and the acceptance set, announce,
and try to start afresh.  Returns whether a rematch was started. -/
def startRematch (online : String → Bool) (now : Int) (whiteIndex : Nat)
    (st : ServerState) (roomId : String) : ServerState × List Emit × Bool :=
  match alGet roomId st.rooms with
  | none => (st, [], false)
  | some room =>
    match room.game with
    | none => (st, [], false)
    | some _ =>
      let room1 := { room with game := none }
      let st1 :=
        { st with
            rooms := alSet roomId room1 st.rooms
            rematchAccepted := alDelete roomId st.rematchAccepted }
      let r2 := maybeStartGame online now whiteIndex st1 roomId
      (r2.1,
        [.rematchStatus roomId "started" "Rematch accepted. Starting a new game." none] ++ r2.2,
        true)

/-- Ack data of the rematch events: `{waitingFor?, started?}`. -/
structure RematchData where
  waitingFor : Option String
  started : Option Bool
deriving DecidableEq, Repr

/-- `Set.add`: append unless present (JS `Set` preserves insertion order). -/
def setAdd (x : String) (l : List String) : List String :=
  if x ∈ l then l else l ++ [x]

/-- The `game:rematch:request` handler. -/
def rematchRequest (online : String → Bool) (now : Int) (whiteIndex : Nat)
    (st : ServerState) (userId username : String) :
    ServerState × List Emit × List (Ack RematchData) :=
  match alGet userId st.roomByUserId with
  | none => (st, [], [.err "You are not in a room"])
  | some roomId =>
    let er := getEndedGameRoomM now st roomId
    let st1 := er.1
    match er.2 with
    | none => (st1, [], [.err "Rematch is only available after game over"])
    | some room =>
      match room.game with
      | none => (st1, [], [.err "Rematch is only available after game over"])
      | some g =>
        let isWhite := g.whiteUserId = userId
        let isBlack := g.blackUserId = userId
        if ¬ isWhite ∧ ¬ isBlack then (st1, [], [.err "Only players can request rematch"])
        else
          let opponentUserId := if isWhite then g.blackUserId else g.whiteUserId
          match alGet opponentUserId room.players with
          | none => (st1, [], [.err "Opponent is no longer in the room"])
          | some opponent =>
            let accepted := setAdd userId ((alGet roomId st1.rematchAccepted).getD [])
            let st2 := { st1 with rematchAccepted := alSet roomId accepted st1.rematchAccepted }
            let announce :=
              [Emit.rematchStatus roomId "requested" (username ++ " requested a rematch.")
                (some ⟨userId, username⟩)]
            if opponentUserId ∉ accepted then
              (st2, announce ++ [.rematchRequested opponentUserId ⟨userId, username⟩],
                [.ok (some ⟨some opponent.username, none⟩)])
            else
              let r3 := startRematch online now whiteIndex st2 roomId
              (r3.1, announce ++ r3.2.1, [.ok (some ⟨none, some r3.2.2⟩)])

/-- The `game:rematch:respond` handler. -/
def rematchRespond (online : String → Bool) (now : Int) (whiteIndex : Nat)
    (st : ServerState) (userId username : String) (accept : Bool) :
    ServerState × List Emit × List (Ack RematchData) :=
  match alGet userId st.roomByUserId with
  | none => (st, [], [.err "You are not in a room"])
  | some roomId =>
    let er := getEndedGameRoomM now st roomId
    let st1 := er.1
    match er.2 with
    | none => (st1, [], [.err "No rematch request to respond to"])
    | some room =>
      match room.game with
      | none => (st1, [], [.err "No rematch request to respond to"])
      | some g =>
        let isWhite := g.whiteUserId = userId
        let isBlack := g.blackUserId = userId
        if ¬ isWhite ∧ ¬ isBlack then (st1, [], [.err "Only players can respond to rematch"])
        else if ¬ accept then
          let st2 := { st1 with rematchAccepted := alDelete roomId st1.rematchAccepted }
          (st2,
            [.rematchStatus roomId "declined" (username ++ " declined the rematch request.")
              (some ⟨userId, username⟩)],
            [.ok (some ⟨none, some false⟩)])
        else
          let accepted := setAdd userId ((alGet roomId st1.rematchAccepted).getD [])
          let st2 := { st1 with rematchAccepted := alSet roomId accepted st1.rematchAccepted }
          let opponentUserId := if isWhite then g.blackUserId else g.whiteUserId
          if opponentUserId ∉ accepted then (st2, [], [.ok (some ⟨none, some false⟩)])
          else
            let r3 := startRematch online now whiteIndex st2 roomId
            (r3.1, r3.2.1, [.ok (some ⟨none, some r3.2.2⟩)])

/-- Ack data of the draw events: `{waitingFor?, accepted?}`. -/
structure DrawData where
  waitingFor : Option String
  accepted : Option Bool
deriving DecidableEq, Repr

/-- Modelled from the spec: the server handler for `game:draw:request` is not
in the sources (only its `ClientToServerEvents` declaration and the client
caller are).  Per §4.3.2 a draw offer is valid only while the snapshot is
active and the requester is seated; it adds the requester to the pending set,
notifies the opponent's sockets and the room, and acks with the opponent's
name. -/
def drawRequest (now : Int) (st : ServerState) (userId username : String) :
    ServerState × List Emit × List (Ack DrawData) :=
  match alGet userId st.roomByUserId with
  | none => (st, [], [.err "You are not in a room"])
  | some roomId =>
    match alGet roomId st.rooms with
    | none => (st, [], [.err "Room no longer exists"])
    | some room =>
      match room.game with
      | none => (st, [], [.err "Game not started"])
      | some g0 =>
        let gs := snapshotGame now room g0
        let g1 := gs.1
        let room1 := { room with game := some g1 }
        let st1 := { st with rooms := alSet roomId room1 st.rooms }
        match gs.2 with
        | none => (st1, [], [.err "Game is already over"])
        | some s =>
          if s.status ≠ GameStatus.active then (st1, [], [.err "Game is already over"])
          else if g1.whiteUserId ≠ userId ∧ g1.blackUserId ≠ userId then
            (st1, [], [.err "You are not a player in this game"])
          else
            let opponentUserId := if g1.whiteUserId = userId then g1.blackUserId else g1.whiteUserId
            let opponent := alGet opponentUserId room.players
            let pending := setAdd userId ((alGet roomId st1.drawPending).getD [])
            let st2 := { st1 with drawPending := alSet roomId pending st1.drawPending }
            (st2,
              [.drawRequested opponentUserId ⟨userId, username⟩,
                .drawStatus roomId "requested" (username ++ " offered a draw.")
                  (some ⟨userId, username⟩)],
              [.ok (some ⟨(opponent.map Player.username), none⟩)])

/-- Modelled from the spec: the server handler for `game:draw:respond` is not
in the sources (only its `ClientToServerEvents` declaration and the client
caller are).  Per §4.3.2, `respondDraw(B, accept=false)` clears the pending
set and announces the decline; `respondDraw(B, accept=true)` is valid only
when the opponent already offered: it sets `agreedDraw`, clears the pending
set, and rebroadcasts the (now terminal) snapshot, producing `game:over`. -/
def drawRespond (now : Int) (st : ServerState) (userId username : String) (accept : Bool) :
    ServerState × List Emit × List (Ack DrawData) :=
  match alGet userId st.roomByUserId with
  | none => (st, [], [.err "You are not in a room"])
  | some roomId =>
    match alGet roomId st.rooms with
    | none => (st, [], [.err "Room no longer exists"])
    | some room =>
      match room.game with
      | none => (st, [], [.err "Game not started"])
      | some g0 =>
        let gs := snapshotGame now room g0
        let g1 := gs.1
        let room1 := { room with game := some g1 }
        let st1 := { st with rooms := alSet roomId room1 st.rooms }
        match gs.2 with
        | none => (st1, [], [.err "Game is already over"])
        | some s =>
          if s.status ≠ GameStatus.active then (st1, [], [.err "Game is already over"])
          else if g1.whiteUserId ≠ userId ∧ g1.blackUserId ≠ userId then
            (st1, [], [.err "You are not a player in this game"])
          else if ¬ accept then
            let st2 := { st1 with drawPending := alDelete roomId st1.drawPending }
            (st2,
              [.drawStatus roomId "declined" (username ++ " declined the draw offer.")
                (some ⟨userId, username⟩)],
              [.ok (some ⟨none, some false⟩)])
          else
            let opponentUserId := if g1.whiteUserId = userId then g1.blackUserId else g1.whiteUserId
            if opponentUserId ∉ (alGet roomId st1.drawPending).getD [] then
              (st1, [], [.err "No draw request to respond to"])
            else
              let g2 := { g1 with agreedDraw := true }
              let room2 := { room with game := some g2 }
              let st2 :=
                { st1 with
                    rooms := alSet roomId room2 st1.rooms
                    drawPending := alDelete roomId st1.drawPending }
              let r3 := broadcastGameStateM now st2 roomId
              (r3.1,
                [.drawStatus roomId "accepted" (username ++ " accepted the draw offer.")
                  (some ⟨userId, username⟩)] ++ r3.2,
                [.ok (some ⟨none, some true⟩)])

/-! ### Association-list lemmas -/

theorem alGet_alSet_self (k : String) (v : α) (l : List (String × α)) :
    alGet k (alSet k v l) = some v := by
  induction l with
  | nil => simp [alSet, alGet]
  | cons hd tl ih =>
    obtain ⟨k', v'⟩ := hd
    by_cases h : k' = k <;> simp [alSet, alGet, h, ih]

theorem alSet_eq_of_get (k : String) (v : α) (l : List (String × α))
    (h : alGet k l = some v) : alSet k v l = l := by
  induction l with
  | nil => simp [alGet] at h
  | cons hd tl ih =>
    obtain ⟨k', v'⟩ := hd
    by_cases hk : k' = k
    · subst hk
      simp [alGet] at h
      simp [alSet, h]
    · simp [alGet, hk] at h
      simp [alSet, hk, ih h]

theorem alGet_alSet_ne (k k' : String) (v : α) (l : List (String × α)) (h : k' ≠ k) :
    alGet k' (alSet k v l) = alGet k' l := by
  have hk' : k ≠ k' := Ne.symm h
  induction l with
  | nil => simp [alSet, alGet, hk']
  | cons hd tl ih =>
    obtain ⟨k0, v0⟩ := hd
    by_cases hk : k0 = k
    · subst hk
      simp [alSet, alGet, hk']
    · simp [alSet, alGet, hk, ih]

/-! ### Clock-sampling lemmas -/

theorem applyActiveClock_chess (now : Int) (g : Game) :
    (applyActiveClock now g).chess = g.chess := by
  unfold applyActiveClock
  cases g.lastTickAt with
  | none => simp
  | some t => simp; split <;> simp

theorem applyActiveClock_agreedDraw (now : Int) (g : Game) :
    (applyActiveClock now g).agreedDraw = g.agreedDraw := by
  unfold applyActiveClock
  cases g.lastTickAt with
  | none => simp
  | some t => simp; split <;> simp

theorem applyActiveClock_whiteUserId (now : Int) (g : Game) :
    (applyActiveClock now g).whiteUserId = g.whiteUserId := by
  unfold applyActiveClock
  cases g.lastTickAt with
  | none => simp
  | some t => simp; split <;> simp

theorem applyActiveClock_blackUserId (now : Int) (g : Game) :
    (applyActiveClock now g).blackUserId = g.blackUserId := by
  unfold applyActiveClock
  cases g.lastTickAt with
  | none => simp
  | some t => simp; split <;> simp

/-- Sampling again at the same instant changes nothing. -/
theorem applyActiveClock_idem (now : Int) (g : Game) :
    applyActiveClock now (applyActiveClock now g) = applyActiveClock now g := by
  unfold applyActiveClock
  cases h : g.lastTickAt with
  | none => simp [h]
  | some t =>
    simp only [h]
    by_cases he : now - t ≤ 0
    · simp [he, h]
    · simp [he]

/-! ### Claims -/

/-- **C9.** `getRoomState` reports `"playing"` iff a game object exists (even
when that game's snapshot is already terminal — the status only tests the
presence of `room.game`), `"ready"` iff there is no game and exactly 2
players, and `"waiting"` otherwise; the `RoomState.status` type offers only
these three values, so an `"ended"` room status is never reported. -/
theorem C9_roomStatus (online : String → Bool) (room : Room) :
    ((getRoomState online room).status = RoomStatus.playing ↔ room.game.isSome) ∧
    ((getRoomState online room).status = RoomStatus.ready ↔
      room.game = none ∧ room.players.length = 2) ∧
    ((getRoomState online room).status = RoomStatus.waiting ↔
      room.game = none ∧ room.players.length ≠ 2) := by
  unfold getRoomState
  cases hg : room.game with
  | some g =>
    simp [hg]
  | none =>
    by_cases h2 : room.players.length = 2 <;>
      simp [hg, alValues, h2]

/-- The termination precedence exactly as the specification lists it in
§4.3 (top wins): white flag, black flag, agreed draw, checkmate with the side
not to move winning, stalemate, insufficient material, threefold repetition,
other rules-level draw, else active. -/
def specTermination (clockW clockB : Int) (agreed : Bool) (c : Chess) :
    GameStatus × Option Color :=
  if clockW ≤ 0 then (.timeout, some .b)
  else if clockB ≤ 0 then (.timeout, some .w)
  else if agreed then (.draw, none)
  else if c.checkmate then (.checkmate, some c.turn.other)
  else if c.stalemate then (.stalemate, none)
  else if c.insufficientMaterial then (.insufficientMaterial, none)
  else if c.threefoldRepetition then (.threefoldRepetition, none)
  else if c.draw then (.draw, none)
  else (.active, none)

/-- **C2.** The status and winner of every snapshot produced by
`getGameSnapshot` follow the specification's termination precedence, applied
to the clock after folding elapsed time and to the (unchanged) position:
clock flags first, then the agreed draw, then checkmate (winner the side not
to move), then the board-derived draws. -/
theorem C2_terminationPrecedence (now : Int) (room : Room) (g0 : Game)
    (s : GameSnapshot) (hg : room.game = some g0)
    (hs : (getGameSnapshotM now room).2 = some s) :
    (s.status, s.winnerColor) =
      specTermination (applyActiveClock now g0).clockMs.w
        (applyActiveClock now g0).clockMs.b g0.agreedDraw g0.chess := by
  have hcw := applyActiveClock_chess now g0
  have hag := applyActiveClock_agreedDraw now g0
  unfold getGameSnapshotM at hs
  rw [hg] at hs
  simp only [snapshotGame] at hs
  set g1 := applyActiveClock now g0 with hg1
  rcases hW : alGet g1.whiteUserId room.players with _ | white <;>
    rcases hB : alGet g1.blackUserId room.players with _ | black <;>
      simp [hW, hB] at hs
  have : s.status = (statusOf g1).1 ∧ s.winnerColor = (statusOf g1).2 := by
    constructor <;> simp [← hs]
  obtain ⟨h1, h2⟩ := this
  rw [h1, h2]
  unfold statusOf specTermination Color.other
  rw [hcw, hag]
  rcases g0.chess.turn <;> simp

/-- A concrete game used by the C2 witness: white's flag falls on sampling. -/
def c2Game : Game :=
  { chess := Chess.initial
    whiteUserId := "a"
    blackUserId := "b"
    clockMs := { w := 3, b := 1000 }
    lastTickAt := some 0
    agreedDraw := false }

/-- A concrete room used by the C2 witness. -/
def c2Room : Room :=
  { id := "R"
    players := [("a", ⟨"a", "a"⟩), ("b", ⟨"b", "b"⟩)]
    game := some c2Game }

/-- The snapshot `getGameSnapshot` produces for `c2Room` at time 5. -/
def c2Snap : GameSnapshot :=
  { roomId := "R"
    fen := Chess.initial.fen
    turn := Color.w
    isCheck := false
    status := GameStatus.timeout
    winnerColor := some Color.b
    clockMs := { w := 0, b := 1000 }
    whitePlayer := ⟨"a", "a"⟩
    blackPlayer := ⟨"b", "b"⟩ }

/-- Witness for C2: the concrete ended-by-timeout game (white flag down)
snapshots to `timeout` with black the winner, as the precedence dictates. -/
theorem C2_terminationPrecedence_witness :
    (c2Snap.status, c2Snap.winnerColor) =
      specTermination (applyActiveClock 5 c2Game).clockMs.w
        (applyActiveClock 5 c2Game).clockMs.b c2Game.agreedDraw c2Game.chess :=
  C2_terminationPrecedence 5 c2Room c2Game c2Snap rfl (by decide)

/-- A presence oracle with every user offline, for concrete scenarios. -/
def onlineNone : String → Bool := fun _ => false

/-- The empty gateway state (all registries empty). -/
def emptyState : ServerState :=
  { rooms := [], roomByUserId := [], rematchAccepted := [], drawPending := [] }

/-- **C8, counterexample.** `room:create` seeded with `"ab"` stores the
roomId `"AB"` in the registry: caller seeds are only trimmed and upper-cased,
so a stored roomId of length 2 (< 6) exists, refuting the claim that every
stored roomId has length ≥ 6. -/
theorem C8_counterexample :
    (roomCreate onlineNone "u" [] 0 0 emptyState "u1" "alice" (some "ab")).map
        (fun r => alHas "AB" r.1.rooms) = some true
      ∧ ¬ 6 ≤ "AB".length := by
  decide

/-- The characters `[A-Z0-9]`. -/
def upperAlnumChar (c : Char) : Bool :=
  ('A' ≤ c && c ≤ 'Z') || ('0' ≤ c && c ≤ '9')

/-- The lowercase hexadecimal digits, the alphabet of `randomUUID()`
segments. -/
def lowerHexDigits : List Char :=
  ['0', '1', '2', '3', '4']

def lowerHexChars : List Char :=
  lowerHexDigits ++ ['5', '6', '7', '8', '9'] ++ ['a', 'b', 'c'] ++ ['d', 'e', 'f']

theorem upperAlnum_of_toUpper_hex (c : Char) (h : c ∈ lowerHexChars) :
    upperAlnumChar c.toUpper = true := by
  fin_cases h <;> decide

/-- **C8, amended.** Server-generated roomIds — `normalizeRoomId` with no
seed (or a blank one), i.e. the upper-cased first segment of a `randomUUID()`
— consist only of `[A-Z0-9]` and have length 8 ≥ 6, provided the UUID is
canonical (first dash-separated segment of 8 lowercase hex digits).
Caller-seeded roomIds are only trimmed and upper-cased, so they may be
shorter than 6 or contain characters outside `[A-Z0-9]`. -/
theorem C8_generatedRoomIds (uuid : String)
    (hlen : (uuid.data.takeWhile (fun c => c ≠ '-')).length = 8)
    (hhex : ∀ c ∈ uuid.data.takeWhile (fun c => c ≠ '-'), c ∈ lowerHexChars) :
    (normalizeRoomId uuid none).data.all upperAlnumChar = true ∧
      (normalizeRoomId uuid none).data.length = 8 := by
  have hdata : (normalizeRoomId uuid none).data =
      (uuid.data.takeWhile (fun c => c ≠ '-')).map Char.toUpper := rfl
  constructor
  · rw [hdata, List.all_eq_true]
    intro c hc
    rw [List.mem_map] at hc
    obtain ⟨c0, hc0, rfl⟩ := hc
    exact upperAlnum_of_toUpper_hex c0 (hhex c0 hc0)
  · rw [hdata, List.length_map, hlen]

/-- Witness for the amended C8 at a concrete canonical UUID. -/
theorem C8_generatedRoomIds_witness :
    (normalizeRoomId "1a2b3c4d-0000-4000-8000-000000000000" none).data.all
        upperAlnumChar = true ∧
      (normalizeRoomId "1a2b3c4d-0000-4000-8000-000000000000" none).data.length = 8 :=
  C8_generatedRoomIds "1a2b3c4d-0000-4000-8000-000000000000" (by decide)
    (by decide)

/-- The white seat assigned by `maybeStartGame` when the random draw is `i`:
the `whiteUserId` of the game stored in the room afterwards. -/
def startedWhiteUserId (online : String → Bool) (now : Int) (i : Nat)
    (st : ServerState) (roomId : String) : Option String :=
  match alGet roomId (maybeStartGame online now i st roomId).1.rooms with
  | none => none
  | some room => room.game.map Game.whiteUserId

/-- The black seat assigned by `maybeStartGame` when the random draw is `i`. -/
def startedBlackUserId (online : String → Bool) (now : Int) (i : Nat)
    (st : ServerState) (roomId : String) : Option String :=
  match alGet roomId (maybeStartGame online now i st roomId).1.rooms with
  | none => none
  | some room => room.game.map Game.blackUserId

/-- **C5.** `maybeStartGame` creates a game only when the room has exactly 2
players and no existing game (otherwise state and emissions are untouched),
and the colors are a uniform-random permutation of the two seated userIds:
draw 0 seats the first-joined player as white, draw 1 the second, so over the
uniform draw `randomInt(0,2)` each player is white in exactly 1 of the 2
equally likely outcomes. -/
theorem C5_maybeStartUniform (online : String → Bool) (now : Int)
    (st : ServerState) (roomId : String) (room : Room) (k0 k1 : String)
    (p0 p1 : Player) (hroom : alGet roomId st.rooms = some room)
    (hp : room.players = [(k0, p0), (k1, p1)])
    (hk0 : k0 = p0.userId) (hk1 : k1 = p1.userId)
    (hg : room.game = none) (hne : p0.userId ≠ p1.userId) :
    (∀ (whiteIndex : Nat) (st' : ServerState) (roomId' : String) (room' : Room),
        alGet roomId' st'.rooms = some room' →
        room'.players.length ≠ 2 ∨ room'.game.isSome →
        maybeStartGame online now whiteIndex st' roomId' = (st', [])) ∧
      startedWhiteUserId online now 0 st roomId = some p0.userId ∧
      startedBlackUserId online now 0 st roomId = some p1.userId ∧
      startedWhiteUserId online now 1 st roomId = some p1.userId ∧
      startedBlackUserId online now 1 st roomId = some p0.userId ∧
      (Finset.filter
          (fun i => startedWhiteUserId online now i st roomId = some p0.userId)
          (Finset.range 2)).card = 1 ∧
      (Finset.filter
          (fun i => startedWhiteUserId online now i st roomId = some p1.userId)
          (Finset.range 2)).card = 1 := by
  have honly : ∀ (whiteIndex : Nat) (st' : ServerState) (roomId' : String) (room' : Room),
      alGet roomId' st'.rooms = some room' →
      room'.players.length ≠ 2 ∨ room'.game.isSome →
      maybeStartGame online now whiteIndex st' roomId' = (st', []) := by
    intro whiteIndex st' roomId' room' hr hcond
    unfold maybeStartGame
    rw [hr]
    simp [hcond]
  have hw0 : startedWhiteUserId online now 0 st roomId = some p0.userId := by
    unfold startedWhiteUserId maybeStartGame
    simp only [hroom]
    simp [hp, hg, alValues, getGameSnapshotM, snapshotGame, applyActiveClock, statusOf,
      INITIAL_CLOCK_MS, Chess.initial, alGet, hk0, hk1, hne, alGet_alSet_self]
  have hb0 : startedBlackUserId online now 0 st roomId = some p1.userId := by
    unfold startedBlackUserId maybeStartGame
    simp only [hroom]
    simp [hp, hg, alValues, getGameSnapshotM, snapshotGame, applyActiveClock, statusOf,
      INITIAL_CLOCK_MS, Chess.initial, alGet, hk0, hk1, hne, alGet_alSet_self]
  have hw1 : startedWhiteUserId online now 1 st roomId = some p1.userId := by
    unfold startedWhiteUserId maybeStartGame
    simp only [hroom]
    simp [hp, hg, alValues, getGameSnapshotM, snapshotGame, applyActiveClock, statusOf,
      INITIAL_CLOCK_MS, Chess.initial, alGet, hk0, hk1, hne, Ne.symm hne,
      alGet_alSet_self]
  have hb1 : startedBlackUserId online now 1 st roomId = some p0.userId := by
    unfold startedBlackUserId maybeStartGame
    simp only [hroom]
    simp [hp, hg, alValues, getGameSnapshotM, snapshotGame, applyActiveClock, statusOf,
      INITIAL_CLOCK_MS, Chess.initial, alGet, hk0, hk1, hne, Ne.symm hne,
      alGet_alSet_self]
  have hrange : Finset.range 2 = ({0, 1} : Finset Nat) := by decide
  refine ⟨honly, hw0, hb0, hw1, hb1, ?_, ?_⟩
  · rw [hrange]
    rw [Finset.filter_insert, Finset.filter_singleton]
    simp [hw0, hw1, hne, Ne.symm hne]
  · rw [hrange]
    rw [Finset.filter_insert, Finset.filter_singleton]
    simp [hw0, hw1, hne, Ne.symm hne]

/-- A concrete two-player room without a game, for the C5 witness. -/
def c5Room : Room :=
  { id := "R", players := [("a", ⟨"a", "a"⟩), ("b", ⟨"b", "b"⟩)], game := none }

/-- A concrete gateway state holding `c5Room`. -/
def c5State : ServerState :=
  { rooms := [("R", c5Room)], roomByUserId := [("a", "R"), ("b", "R")],
    rematchAccepted := [], drawPending := [] }

/-- Witness for C5 at the concrete room: both color permutations appear, one
per random draw. -/
theorem C5_maybeStartUniform_witness :
    (∀ (whiteIndex : Nat) (st' : ServerState) (roomId' : String) (room' : Room),
        alGet roomId' st'.rooms = some room' →
        room'.players.length ≠ 2 ∨ room'.game.isSome →
        maybeStartGame onlineNone 0 whiteIndex st' roomId' = (st', [])) ∧
      startedWhiteUserId onlineNone 0 0 c5State "R" = some (Player.mk "a" "a").userId ∧
      startedBlackUserId onlineNone 0 0 c5State "R" = some (Player.mk "b" "b").userId ∧
      startedWhiteUserId onlineNone 0 1 c5State "R" = some (Player.mk "b" "b").userId ∧
      startedBlackUserId onlineNone 0 1 c5State "R" = some (Player.mk "a" "a").userId ∧
      (Finset.filter
          (fun i => startedWhiteUserId onlineNone 0 i c5State "R" = some (Player.mk "a" "a").userId)
          (Finset.range 2)).card = 1 ∧
      (Finset.filter
          (fun i => startedWhiteUserId onlineNone 0 i c5State "R" = some (Player.mk "b" "b").userId)
          (Finset.range 2)).card = 1 :=
  C5_maybeStartUniform onlineNone 0 c5State "R" c5Room "a" "b" ⟨"a", "a"⟩ ⟨"b", "b"⟩
    rfl rfl rfl rfl rfl (by decide)

/-- **C10.** A repeated `room:join` by a user already seated in the room (and
indexed to it) succeeds with `{ok:true}` and is fully idempotent: the "Room
is full" check does not fire even with 2 players (the membership test
short-circuits it), and the rooms registry, `roomByUserId`, and the room's
players map are untouched — the handler returns the state unchanged.  The
hypothesis `players.length = 2 → game.isSome` is the standing invariant that
a full room is already playing, which keeps `maybeStartGame` from firing. -/
theorem C10_rejoinIdempotent (online : String → Bool) (uuid0 : String) (now : Int)
    (whiteIndex : Nat) (st : ServerState) (userId username roomIdArg nrid : String)
    (room : Room) (hnr : normalizeRoomId uuid0 (some roomIdArg) = nrid)
    (hroom : alGet nrid st.rooms = some room)
    (hseated : alGet userId room.players = some ⟨userId, username⟩)
    (hidx : alGet userId st.roomByUserId = some nrid)
    (hinv : room.players.length = 2 → room.game.isSome) :
    roomJoin online uuid0 now whiteIndex st userId username roomIdArg =
      (st, [.roomState nrid (getRoomState online room)],
        [.ok (some (getRoomState online room))]) := by
  have hset1 : alSet userId (Player.mk userId username) room.players = room.players :=
    alSet_eq_of_get _ _ _ hseated
  have hset2 : alSet nrid room st.rooms = st.rooms := alSet_eq_of_get _ _ _ hroom
  have hset3 : alSet userId nrid st.roomByUserId = st.roomByUserId :=
    alSet_eq_of_get _ _ _ hidx
  have hhas : alHas userId room.players = true := by
    unfold alHas
    rw [hseated]
    rfl
  by_cases h2 : room.players.length = 2
  · have hsome := hinv h2
    simp only [roomJoin, hnr, hroom, hidx, hhas]
    simp only [hset1, hset2, hset3]
    simp [maybeStartGame, hroom, h2, hsome]
  · simp only [roomJoin, hnr, hroom, hidx, hhas]
    simp only [hset1, hset2, hset3]
    simp [maybeStartGame, hroom, h2]

/-- Witness for C10: the sole occupant of a concrete one-player room rejoins;
the call acks ok and the state is unchanged. -/
theorem C10_rejoinIdempotent_witness :
    roomJoin onlineNone "u" 0 0
        { rooms := [("R1", { id := "R1", players := [("a", ⟨"a", "a"⟩)], game := none })],
          roomByUserId := [("a", "R1")], rematchAccepted := [], drawPending := [] }
        "a" "a" "r1" =
      ({ rooms := [("R1", { id := "R1", players := [("a", ⟨"a", "a"⟩)], game := none })],
          roomByUserId := [("a", "R1")], rematchAccepted := [], drawPending := [] },
        [.roomState "R1"
          (getRoomState onlineNone { id := "R1", players := [("a", ⟨"a", "a"⟩)], game := none })],
        [.ok (some (getRoomState onlineNone
          { id := "R1", players := [("a", ⟨"a", "a"⟩)], game := none }))]) :=
  C10_rejoinIdempotent onlineNone "u" 0 0 _ "a" "a" "r1" "R1"
    { id := "R1", players := [("a", ⟨"a", "a"⟩)], game := none }
    (by decide) rfl rfl rfl (by decide)

/-! ### Snapshot-stability lemmas -/

theorem snapshotGame_fst_chess (now : Int) (room : Room) (g0 : Game) :
    (snapshotGame now room g0).1.chess = g0.chess := by
  simp only [snapshotGame]
  split
  · split <;> simp [applyActiveClock_chess]
  · simp [applyActiveClock_chess]

theorem snapshotGame_fst_whiteUserId (now : Int) (room : Room) (g0 : Game) :
    (snapshotGame now room g0).1.whiteUserId = g0.whiteUserId := by
  simp only [snapshotGame]
  split
  · split <;> simp [applyActiveClock_whiteUserId]
  · simp [applyActiveClock_whiteUserId]

theorem snapshotGame_fst_blackUserId (now : Int) (room : Room) (g0 : Game) :
    (snapshotGame now room g0).1.blackUserId = g0.blackUserId := by
  simp only [snapshotGame]
  split
  · split <;> simp [applyActiveClock_blackUserId]
  · simp [applyActiveClock_blackUserId]

theorem snapshotGame_fst_agreedDraw (now : Int) (room : Room) (g0 : Game) :
    (snapshotGame now room g0).1.agreedDraw = g0.agreedDraw := by
  simp only [snapshotGame]
  split
  · split <;> simp [applyActiveClock_agreedDraw]
  · simp [applyActiveClock_agreedDraw]

theorem snapshotGame_fst_clockMs (now : Int) (room : Room) (g0 : Game) :
    (snapshotGame now room g0).1.clockMs = (applyActiveClock now g0).clockMs := by
  simp only [snapshotGame]
  split
  · split <;> simp
  · simp

theorem snapshotGame_snd_status (now : Int) (room : Room) (g0 : Game)
    (s : GameSnapshot) (h : (snapshotGame now room g0).2 = some s) :
    s.status = (statusOf (applyActiveClock now g0)).1 := by
  simp only [snapshotGame] at h
  split at h
  · simp at h
    rw [← h]
  · simp at h

theorem statusOf_lastTickAt_irrel (g : Game) (t : Option Int) :
    statusOf { g with lastTickAt := t } = statusOf g := rfl

/-- Re-sampling the game a snapshot returned, at the same instant, changes
nothing. -/
theorem applyActiveClock_snap_fixpoint (now : Int) (room : Room) (g0 : Game) :
    applyActiveClock now (snapshotGame now room g0).1 = (snapshotGame now room g0).1 := by
  simp only [snapshotGame]
  split
  · split
    · simp [applyActiveClock]
    · simp [applyActiveClock_idem]
  · simp [applyActiveClock_idem]

/-- A second `getGameSnapshot` pass at the same instant, on a room with the
same players holding the already-sampled game, leaves the game unchanged. -/
theorem snapshotGame_fst_resample (now : Int) (room room' : Room) (g0 : Game)
    (hp : room'.players = room.players) :
    (snapshotGame now room' (snapshotGame now room g0).1).1 =
      (snapshotGame now room g0).1 := by
  have hg1w := applyActiveClock_whiteUserId now g0
  have hg1b := applyActiveClock_blackUserId now g0
  rcases hW : alGet g0.whiteUserId room.players with _ | white <;>
    rcases hB : alGet g0.blackUserId room.players with _ | black
  · have h1 : snapshotGame now room g0 = (applyActiveClock now g0, none) := by
      simp only [snapshotGame]
      rw [hg1w, hg1b, hW, hB]
    rw [h1]
    simp only [snapshotGame]
    rw [applyActiveClock_idem, hg1w, hg1b, hp, hW, hB]
  · have h1 : snapshotGame now room g0 = (applyActiveClock now g0, none) := by
      simp only [snapshotGame]
      rw [hg1w, hg1b, hW, hB]
    rw [h1]
    simp only [snapshotGame]
    rw [applyActiveClock_idem, hg1w, hg1b, hp, hW, hB]
  · have h1 : snapshotGame now room g0 = (applyActiveClock now g0, none) := by
      simp only [snapshotGame]
      rw [hg1w, hg1b, hW, hB]
    rw [h1]
    simp only [snapshotGame]
    rw [applyActiveClock_idem, hg1w, hg1b, hp, hW, hB]
  · by_cases hact : (statusOf (applyActiveClock now g0)).1 = GameStatus.active
    · have h1 : (snapshotGame now room g0).1 = applyActiveClock now g0 := by
        simp only [snapshotGame]
        rw [hg1w, hg1b, hW, hB]
        simp [hact]
      rw [h1]
      simp only [snapshotGame]
      rw [applyActiveClock_idem, hg1w, hg1b, hp, hW, hB]
      simp [hact]
    · have h1 : (snapshotGame now room g0).1 =
          { applyActiveClock now g0 with lastTickAt := none } := by
        simp only [snapshotGame]
        rw [hg1w, hg1b, hW, hB]
        simp [hact]
      rw [h1]
      have h2 : applyActiveClock now { applyActiveClock now g0 with lastTickAt := none } =
          { applyActiveClock now g0 with lastTickAt := none } := by
        simp [applyActiveClock]
      simp only [snapshotGame]
      rw [h2]
      simp only []
      rw [hg1w, hg1b, hp, hW, hB]
      have h3 : statusOf { applyActiveClock now g0 with lastTickAt := none } =
          statusOf (applyActiveClock now g0) := rfl
      simp [h3, hact]

/-- The state a failing `chess:move` (past the snapshot pre-check) leaves
behind: the target room's game replaced by its clock-sampled version. -/
def sampledState (now : Int) (st : ServerState) (roomId : String) (room : Room)
    (g0 : Game) : ServerState :=
  { st with rooms := alSet roomId { room with game := some (snapshotGame now room g0).1 } st.rooms }

/-- Re-broadcasting the game state right after the snapshot pre-check leaves
the registries untouched: the second snapshot pass at the same instant is a
no-op on the stored room. -/
theorem broadcastGameStateM_fst_sampled (now : Int) (st : ServerState)
    (roomId : String) (room : Room) (g0 : Game) :
    (broadcastGameStateM now (sampledState now st roomId room g0) roomId).1 =
      sampledState now st roomId room g0 := by
  unfold broadcastGameStateM sampledState
  rw [alGet_alSet_self]
  simp only [getGameSnapshotM]
  rw [snapshotGame_fst_resample now room
    { room with game := some (snapshotGame now room g0).1 } g0 rfl]
  have hset : alSet roomId { room with game := some (snapshotGame now room g0).1 }
      (alSet roomId { room with game := some (snapshotGame now room g0).1 } st.rooms) =
      alSet roomId { room with game := some (snapshotGame now room g0).1 } st.rooms :=
    alSet_eq_of_get _ _ _ (alGet_alSet_self _ _ _)
  split <;> simp [hset]

/-- `statusOf` reports `timeout` whenever a flag is down. -/
theorem statusOf_timeout (g : Game) (h : g.clockMs.w ≤ 0 ∨ g.clockMs.b ≤ 0) :
    (statusOf g).1 = GameStatus.timeout := by
  unfold statusOf
  rcases h with h | h
  · simp [h]
  · by_cases hw : g.clockMs.w ≤ 0 <;> simp [hw, h]

/-- **C6.** A move submitted while either side's clock, after folding elapsed
time on sample, is ≤ 0 is never applied: the ack is
`{ok:false, error:"Game is already over"}` and the stored board position (and
players map) is unchanged. -/
theorem C6_noMoveAfterFlag
    (moveImpl : Chess → String → String → Option String → MoveOutcome)
    (now : Int) (st : ServerState) (userId username : String)
    (fromRaw toRaw : String) (promotion : Option String) (roomId : String)
    (room : Room) (g0 : Game)
    (hidx : alGet userId st.roomByUserId = some roomId)
    (hroom : alGet roomId st.rooms = some room)
    (hmem : alHas userId room.players = true)
    (hg : room.game = some g0)
    (hflag : (applyActiveClock now g0).clockMs.w ≤ 0 ∨
      (applyActiveClock now g0).clockMs.b ≤ 0) :
    (chessMove moveImpl now st userId username roomId fromRaw toRaw promotion).2.2 =
        [Ack.err "Game is already over"] ∧
      ∃ room' g',
        alGet roomId
            (chessMove moveImpl now st userId username roomId fromRaw toRaw promotion).1.rooms =
          some room' ∧
        room'.game = some g' ∧ g'.chess = g0.chess ∧ room'.players = room.players := by
  have hbr := broadcastGameStateM_fst_sampled now st roomId room g0
  have hstep :
      chessMove moveImpl now st userId username roomId fromRaw toRaw promotion =
        ((broadcastGameStateM now (sampledState now st roomId room g0) roomId).1,
          (broadcastGameStateM now (sampledState now st roomId room g0) roomId).2,
          [Ack.err "Game is already over"]) := by
    unfold chessMove
    rw [hidx]
    simp only [hroom, hmem, hg]
    rcases hs : (snapshotGame now room g0).2 with _ | s
    · simp [hs, sampledState]
    · have hto : s.status = GameStatus.timeout := by
        rw [snapshotGame_snd_status now room g0 s hs]
        exact statusOf_timeout _ hflag
      simp [hs, hto, sampledState]
  rw [hstep]
  refine ⟨rfl, ?_⟩
  rw [hbr]
  refine ⟨{ room with game := some (snapshotGame now room g0).1 },
    (snapshotGame now room g0).1, ?_, rfl, snapshotGame_fst_chess now room g0, rfl⟩
  unfold sampledState
  exact alGet_alSet_self _ _ _

/-- A rules-library stub that reports every move as null, for witnesses. -/
def nullMove : Chess → String → String → Option String → MoveOutcome :=
  fun _ _ _ _ => .null

/-- A concrete flagged game (white's clock at 0) for the C6 witness. -/
def c6Game : Game :=
  { chess := Chess.initial, whiteUserId := "a", blackUserId := "b",
    clockMs := { w := 0, b := 1000 }, lastTickAt := none, agreedDraw := false }

/-- A concrete room holding `c6Game`. -/
def c6Room : Room :=
  { id := "R", players := [("a", ⟨"a", "a"⟩), ("b", ⟨"b", "b"⟩)], game := some c6Game }

/-- A concrete gateway state holding `c6Room`. -/
def c6State : ServerState :=
  { rooms := [("R", c6Room)], roomByUserId := [("a", "R"), ("b", "R")],
    rematchAccepted := [], drawPending := [] }

/-- Witness for C6: white, flag down, attempts e2-e4 and is refused with the
board intact. -/
theorem C6_noMoveAfterFlag_witness :
    (chessMove nullMove 0 c6State "a" "a" "R" "e2" "e4" none).2.2 =
        [Ack.err "Game is already over"] ∧
      ∃ room' g',
        alGet "R" (chessMove nullMove 0 c6State "a" "a" "R" "e2" "e4" none).1.rooms =
          some room' ∧
        room'.game = some g' ∧ g'.chess = c6Game.chess ∧ room'.players = c6Room.players :=
  C6_noMoveAfterFlag nullMove 0 c6State "a" "a" "e2" "e4" none "R" c6Room c6Game
    rfl rfl rfl rfl (by decide)

/-- **C3.** For a `chess:move` by a user seated in an existing room (payload
room matching), the pre-checks short-circuit in the spec's order with exactly
the listed errors: no game → "Game not started"; snapshot (which folds the
clock) missing or not active → "Game is already over"; not seated as white or
black → "You are not a player in this game"; not the user's turn → "Not your
turn"; empty trimmed from/to → "Move must include from and to squares"; a
null or thrown rules result → "Illegal move". -/
theorem C3_movePrechecks
    (moveImpl : Chess → String → String → Option String → MoveOutcome)
    (now : Int) (st : ServerState) (userId username : String)
    (fromRaw toRaw : String) (promotion : Option String) (roomId : String)
    (room : Room)
    (hidx : alGet userId st.roomByUserId = some roomId)
    (hroom : alGet roomId st.rooms = some room)
    (hmem : alHas userId room.players = true) :
    (room.game = none →
      (chessMove moveImpl now st userId username roomId fromRaw toRaw promotion).2.2 =
        [Ack.err "Game not started"]) ∧
    (∀ g0, room.game = some g0 →
      ((snapshotGame now room g0).2 = none ∨
        ∃ s, (snapshotGame now room g0).2 = some s ∧ s.status ≠ GameStatus.active) →
      (chessMove moveImpl now st userId username roomId fromRaw toRaw promotion).2.2 =
        [Ack.err "Game is already over"]) ∧
    (∀ g0 s, room.game = some g0 → (snapshotGame now room g0).2 = some s →
      s.status = GameStatus.active →
      g0.whiteUserId ≠ userId → g0.blackUserId ≠ userId →
      (chessMove moveImpl now st userId username roomId fromRaw toRaw promotion).2.2 =
        [Ack.err "You are not a player in this game"]) ∧
    (∀ g0 s c, room.game = some g0 → (snapshotGame now room g0).2 = some s →
      s.status = GameStatus.active →
      (if g0.whiteUserId = userId then some Color.w
        else if g0.blackUserId = userId then some Color.b else none) = some c →
      g0.chess.turn ≠ c →
      (chessMove moveImpl now st userId username roomId fromRaw toRaw promotion).2.2 =
        [Ack.err "Not your turn"]) ∧
    (∀ g0 s c, room.game = some g0 → (snapshotGame now room g0).2 = some s →
      s.status = GameStatus.active →
      (if g0.whiteUserId = userId then some Color.w
        else if g0.blackUserId = userId then some Color.b else none) = some c →
      g0.chess.turn = c →
      (jsToLower (jsTrim fromRaw) = "" ∨ jsToLower (jsTrim toRaw) = "") →
      (chessMove moveImpl now st userId username roomId fromRaw toRaw promotion).2.2 =
        [Ack.err "Move must include from and to squares"]) ∧
    (∀ g0 s c, room.game = some g0 → (snapshotGame now room g0).2 = some s →
      s.status = GameStatus.active →
      (if g0.whiteUserId = userId then some Color.w
        else if g0.blackUserId = userId then some Color.b else none) = some c →
      g0.chess.turn = c →
      jsToLower (jsTrim fromRaw) ≠ "" → jsToLower (jsTrim toRaw) ≠ "" →
      (moveImpl g0.chess (jsToLower (jsTrim fromRaw)) (jsToLower (jsTrim toRaw)) promotion =
          MoveOutcome.thrown ∨
        moveImpl g0.chess (jsToLower (jsTrim fromRaw)) (jsToLower (jsTrim toRaw)) promotion =
          MoveOutcome.null) →
      (chessMove moveImpl now st userId username roomId fromRaw toRaw promotion).2.2 =
        [Ack.err "Illegal move"]) := by
  refine ⟨?_, ?_, ?_, ?_, ?_, ?_⟩
  · intro hg
    unfold chessMove
    rw [hidx]
    simp [hroom, hmem, hg]
  · intro g0 hg hover
    unfold chessMove
    rw [hidx]
    simp only [hroom, hmem, hg]
    rcases hover with hnone | ⟨s, hs, hact⟩
    · simp [hnone]
    · simp [hs, hact]
  · intro g0 s hg hs hact hw hb
    unfold chessMove
    rw [hidx]
    simp only [hroom, hmem, hg, hs]
    simp [hact, snapshotGame_fst_whiteUserId, snapshotGame_fst_blackUserId, hw, hb]
  · intro g0 s c hg hs hact hseat hturn
    unfold chessMove
    rw [hidx]
    simp only [hroom, hmem, hg, hs]
    rw [snapshotGame_fst_whiteUserId, snapshotGame_fst_blackUserId]
    simp only [hact, hseat]
    simp [snapshotGame_fst_chess, hturn, hact]
  · intro g0 s c hg hs hact hseat hturn hempty
    unfold chessMove
    rw [hidx]
    simp only [hroom, hmem, hg, hs]
    rw [snapshotGame_fst_whiteUserId, snapshotGame_fst_blackUserId]
    simp only [hact, hseat]
    simp [snapshotGame_fst_chess, hturn, hact, hempty]
  · intro g0 s c hg hs hact hseat hturn hfrom hto hill
    unfold chessMove
    rw [hidx]
    simp only [hroom, hmem, hg, hs]
    rw [snapshotGame_fst_whiteUserId, snapshotGame_fst_blackUserId]
    simp only [hact, hseat]
    rcases hill with hill | hill <;>
      simp [snapshotGame_fst_chess, hturn, hact, hfrom, hto, hill]

/-- Witness for C3: with no game started in the concrete room, the move is
refused with "Game not started". -/
theorem C3_movePrechecks_witness :
    (chessMove nullMove 0 c5State "a" "a" "R" "e2" "e4" none).2.2 =
      [Ack.err "Game not started"] :=
  (C3_movePrechecks nullMove 0 c5State "a" "a" "e2" "e4" none "R" c5Room
    rfl rfl rfl).1 rfl

/-- **C7.** A `chess:move` acknowledged with an error never mutates the
registries beyond the snapshot pre-check's ordinary clock sampling: the state
is either completely untouched (failures before the game lookup) or exactly
`sampledState` — the target room with its game clock-sampled, the position,
seats, agreed-draw flag and players map all preserved. -/
theorem C7_failedMoveNoMutation
    (moveImpl : Chess → String → String → Option String → MoveOutcome)
    (now : Int) (st : ServerState) (userId username : String)
    (payloadRoomId fromRaw toRaw : String) (promotion : Option String) (e : String)
    (h : (chessMove moveImpl now st userId username payloadRoomId fromRaw toRaw
        promotion).2.2 = [Ack.err e]) :
    (chessMove moveImpl now st userId username payloadRoomId fromRaw toRaw promotion).1 =
        st ∨
      ∃ roomId room g0,
        alGet userId st.roomByUserId = some roomId ∧
        alGet roomId st.rooms = some room ∧
        room.game = some g0 ∧
        (chessMove moveImpl now st userId username payloadRoomId fromRaw toRaw
            promotion).1 = sampledState now st roomId room g0 ∧
        (snapshotGame now room g0).1.chess = g0.chess ∧
        (snapshotGame now room g0).1.whiteUserId = g0.whiteUserId ∧
        (snapshotGame now room g0).1.blackUserId = g0.blackUserId ∧
        (snapshotGame now room g0).1.agreedDraw = g0.agreedDraw := by
  rcases h1 : alGet userId st.roomByUserId with _ | roomId
  · left
    unfold chessMove
    simp [h1]
  · by_cases h2 : payloadRoomId = roomId
    · subst h2
      rcases h3 : alGet payloadRoomId st.rooms with _ | room
      · left
        unfold chessMove
        simp [h1, h3]
      · by_cases h4 : alHas userId room.players = true
        · rcases h5 : room.game with _ | g0
          · left
            unfold chessMove
            simp [h1, h3, h4, h5]
          · right
            refine ⟨payloadRoomId, room, g0, rfl, h3, h5, ?_,
              snapshotGame_fst_chess now room g0, snapshotGame_fst_whiteUserId now room g0,
              snapshotGame_fst_blackUserId now room g0,
              snapshotGame_fst_agreedDraw now room g0⟩
            unfold chessMove
            simp only [h1]
            simp only [h3, h4, h5]
            simp only [ne_eq, not_true_eq_false, Bool.false_eq_true, if_false,
              eq_self_iff_true, not_false_iff]
            rcases h6 : (snapshotGame now room g0).2 with _ | s
            · simp only [h6]
              exact broadcastGameStateM_fst_sampled now st payloadRoomId room g0
            · simp only [h6]
              by_cases h7 : s.status = GameStatus.active
              · simp only [h7]
                simp only [ne_eq, not_true_eq_false, if_false]
                by_cases h8 : (snapshotGame now room g0).1.whiteUserId = userId
                · simp only [h8, if_true]
                  by_cases h9 : (snapshotGame now room g0).1.chess.turn = Color.w
                  · simp only [h9]
                    simp only [ne_eq, not_true_eq_false, if_false]
                    by_cases h10 : jsToLower (jsTrim fromRaw) = "" ∨ jsToLower (jsTrim toRaw) = ""
                    · simp [h10, sampledState]
                    · rcases h11 : moveImpl (snapshotGame now room g0).1.chess
                          (jsToLower (jsTrim fromRaw)) (jsToLower (jsTrim toRaw)) promotion with
                        _ | _ | ⟨nx, sn⟩
                      · simp [h10, h11, sampledState]
                      · simp [h10, h11, sampledState]
                      · exfalso
                        unfold chessMove at h
                        simp [h1, h3, h4, h5, h6, h7, h8, h9, h10, h11] at h
                  · simp [h9, sampledState]
                · by_cases h8b : (snapshotGame now room g0).1.blackUserId = userId
                  · simp only [h8, if_false, h8b, if_true]
                    by_cases h9 : (snapshotGame now room g0).1.chess.turn = Color.b
                    · simp only [h9]
                      simp only [ne_eq, not_true_eq_false, if_false]
                      by_cases h10 : jsToLower (jsTrim fromRaw) = "" ∨ jsToLower (jsTrim toRaw) = ""
                      · simp [h10, sampledState]
                      · rcases h11 : moveImpl (snapshotGame now room g0).1.chess
                            (jsToLower (jsTrim fromRaw)) (jsToLower (jsTrim toRaw)) promotion with
                          _ | _ | ⟨nx, sn⟩
                        · simp [h10, h11, sampledState]
                        · simp [h10, h11, sampledState]
                        · exfalso
                          unfold chessMove at h
                          simp [h1, h3, h4, h5, h6, h7, h8, h8b, h9, h10, h11] at h
                    · simp [h9, sampledState]
                  · simp [h8, h8b, sampledState]
              · simp only [h7]
                simp [h7]
                exact broadcastGameStateM_fst_sampled now st payloadRoomId room g0
        · left
          unfold chessMove
          simp [h1, h3, h4]
    · left
      unfold chessMove
      simp [h1, h2]

/-- Witness for C7: the refused move of the flagged concrete game leaves the
state exactly clock-sampled, with position and seats intact. -/
theorem C7_failedMoveNoMutation_witness :
    (chessMove nullMove 0 c6State "a" "a" "R" "e2" "e4" none).1 = c6State ∨
      ∃ roomId room g0,
        alGet "a" c6State.roomByUserId = some roomId ∧
        alGet roomId c6State.rooms = some room ∧
        room.game = some g0 ∧
        (chessMove nullMove 0 c6State "a" "a" "R" "e2" "e4" none).1 =
          sampledState 0 c6State roomId room g0 ∧
        (snapshotGame 0 room g0).1.chess = g0.chess ∧
        (snapshotGame 0 room g0).1.whiteUserId = g0.whiteUserId ∧
        (snapshotGame 0 room g0).1.blackUserId = g0.blackUserId ∧
        (snapshotGame 0 room g0).1.agreedDraw = g0.agreedDraw :=
  C7_failedMoveNoMutation nullMove 0 c6State "a" "a" "R" "e2" "e4" none
    "Game is already over" (by decide)

theorem alSet_alSet (k : String) (v v' : α) (l : List (String × α)) :
    alSet k v' (alSet k v l) = alSet k v' l := by
  induction l with
  | nil => simp [alSet]
  | cons hd tl ih =>
    obtain ⟨k0, v0⟩ := hd
    by_cases hk : k0 = k
    · simp [alSet, hk]
    · simp [alSet, hk, ih]

theorem alGet_none_of_not_mem (k : String) (l : List (String × α))
    (h : k ∉ l.map Prod.fst) : alGet k l = none := by
  induction l with
  | nil => rfl
  | cons hd tl ih =>
    obtain ⟨k0, v0⟩ := hd
    rw [List.map_cons, List.mem_cons] at h
    push_neg at h
    have h1 : k0 ≠ k := Ne.symm h.1
    simp [alGet, h1, ih h.2]

theorem alGet_alDelete_self (k : String) (l : List (String × α))
    (hnd : (l.map Prod.fst).Nodup) : alGet k (alDelete k l) = none := by
  induction l with
  | nil => rfl
  | cons hd tl ih =>
    obtain ⟨k0, v0⟩ := hd
    rw [List.map_cons, List.nodup_cons] at hnd
    by_cases hk : k0 = k
    · subst hk
      simp only [alDelete, if_pos rfl]
      exact alGet_none_of_not_mem _ _ hnd.1
    · simp [alDelete, hk, alGet, ih hnd.2]

/-- An active snapshot status means neither flag is down. -/
theorem statusOf_active_clocks (g : Game) (h : (statusOf g).1 = GameStatus.active) :
    ¬ g.clockMs.w ≤ 0 ∧ ¬ g.clockMs.b ≤ 0 := by
  by_cases hw : g.clockMs.w ≤ 0
  · exfalso
    simp [statusOf, hw] at h
  · by_cases hb : g.clockMs.b ≤ 0
    · exfalso
      simp [statusOf, hw, hb] at h
    · exact ⟨hw, hb⟩

/-- Clock sampling commutes with setting the agreed-draw flag. -/
theorem applyActiveClock_set_agreedDraw (now : Int) (g : Game) (b : Bool) :
    applyActiveClock now { g with agreedDraw := b } =
      { applyActiveClock now g with agreedDraw := b } := by
  unfold applyActiveClock
  cases h : g.lastTickAt with
  | none => simp [h]
  | some t =>
    simp only [h]
    by_cases he : now - t ≤ 0
    · simp [he, h]
    · simp [he, h]

theorem broadcastGameStateM_fst_drawPending (now : Int) (st : ServerState)
    (roomId : String) :
    (broadcastGameStateM now st roomId).1.drawPending = st.drawPending := by
  unfold broadcastGameStateM
  rcases h : alGet roomId st.rooms with _ | room
  · simp
  · simp only []
    split <;> simp

/-- **C1.** Against the spec-modelled `game:draw:respond` handler: when the
responder is seated in an active game and the opponent has a pending draw
offer, accepting sets `agreedDraw`, clears the pending set, produces a
terminal `game:over` snapshot with status `draw` and no winner, and the event
is acknowledged `{ok:true}` exactly once. -/
theorem C1_drawAcceptEndsGame (now : Int) (st : ServerState)
    (userId username roomId : String) (room : Room) (g0 : Game) (s : GameSnapshot)
    (hidx : alGet userId st.roomByUserId = some roomId)
    (hroom : alGet roomId st.rooms = some room)
    (hg : room.game = some g0)
    (hs : (snapshotGame now room g0).2 = some s)
    (hact : s.status = GameStatus.active)
    (hseat : g0.whiteUserId = userId ∨ g0.blackUserId = userId)
    (hpend : (if g0.whiteUserId = userId then g0.blackUserId else g0.whiteUserId)
      ∈ (alGet roomId st.drawPending).getD [])
    (hnd : (st.drawPending.map Prod.fst).Nodup) :
    (drawRespond now st userId username true).2.2 =
        [Ack.ok (some ⟨none, some true⟩)] ∧
      (∃ room' g',
        alGet roomId (drawRespond now st userId username true).1.rooms = some room' ∧
        room'.game = some g' ∧ g'.agreedDraw = true ∧ room'.players = room.players) ∧
      alGet roomId (drawRespond now st userId username true).1.drawPending = none ∧
      (∃ s', Emit.gameOver roomId s' ∈ (drawRespond now st userId username true).2.1 ∧
        s'.status = GameStatus.draw ∧ s'.winnerColor = none) := by
  rcases hW : alGet g0.whiteUserId room.players with _ | white
  · exfalso
    simp only [snapshotGame, applyActiveClock_whiteUserId, applyActiveClock_blackUserId,
      hW] at hs
    exact Option.noConfusion hs
  rcases hB : alGet g0.blackUserId room.players with _ | black
  · exfalso
    simp only [snapshotGame, applyActiveClock_whiteUserId, applyActiveClock_blackUserId,
      hW, hB] at hs
    exact Option.noConfusion hs
  have hstat : (statusOf (applyActiveClock now g0)).1 = GameStatus.active := by
    rw [← snapshotGame_snd_status now room g0 s hs]
    exact hact
  have hg1 : (snapshotGame now room g0).1 = applyActiveClock now g0 := by
    simp only [snapshotGame, applyActiveClock_whiteUserId, applyActiveClock_blackUserId,
      hW, hB]
    simp [hstat]
  have hclk := statusOf_active_clocks _ hstat
  have happly2 : applyActiveClock now { applyActiveClock now g0 with agreedDraw := true } =
      { applyActiveClock now g0 with agreedDraw := true } := by
    rw [applyActiveClock_set_agreedDraw, applyActiveClock_idem]
  have hstep : drawRespond now st userId username true =
      ((broadcastGameStateM now
          { st with
              rooms := alSet roomId
                { room with game := some { applyActiveClock now g0 with agreedDraw := true } }
                (alSet roomId { room with game := some (applyActiveClock now g0) } st.rooms)
              drawPending := alDelete roomId st.drawPending } roomId).1,
        Emit.drawStatus roomId "accepted" (username ++ " accepted the draw offer.")
            (some ⟨userId, username⟩) ::
          (broadcastGameStateM now
            { st with
                rooms := alSet roomId
                  { room with game := some { applyActiveClock now g0 with agreedDraw := true } }
                  (alSet roomId { room with game := some (applyActiveClock now g0) } st.rooms)
                drawPending := alDelete roomId st.drawPending } roomId).2,
        [Ack.ok (some ⟨none, some true⟩)]) := by
    by_cases hw : g0.whiteUserId = userId
    · have hpend' : g0.blackUserId ∈ (alGet roomId st.drawPending).getD [] := by
        simpa [hw] using hpend
      unfold drawRespond
      simp only [hidx, hroom, hg, hs]
      simp only [hg1, applyActiveClock_whiteUserId, applyActiveClock_blackUserId]
      simp [hact, hw, hpend']
    · have hb : g0.blackUserId = userId := by
        rcases hseat with h | h
        · exact absurd h hw
        · exact h
      have hpend' : g0.whiteUserId ∈ (alGet roomId st.drawPending).getD [] := by
        simpa [hw] using hpend
      unfold drawRespond
      simp only [hidx, hroom, hg, hs]
      simp only [hg1, applyActiveClock_whiteUserId, applyActiveClock_blackUserId]
      simp [hact, hw, hb, hpend']
  have hbcsnap : snapshotGame now
      { room with game := some { applyActiveClock now g0 with agreedDraw := true } }
      { applyActiveClock now g0 with agreedDraw := true } =
      ({ applyActiveClock now g0 with agreedDraw := true, lastTickAt := none },
        some
          { roomId := room.id
            fen := g0.chess.fen
            turn := g0.chess.turn
            isCheck := g0.chess.check
            status := GameStatus.draw
            winnerColor := none
            clockMs := (applyActiveClock now g0).clockMs
            whitePlayer := white
            blackPlayer := black }) := by
    simp only [snapshotGame]
    rw [happly2]
    simp [applyActiveClock_whiteUserId, applyActiveClock_blackUserId, applyActiveClock_chess,
      hW, hB, statusOf, hclk.1, hclk.2]
  have hbc : broadcastGameStateM now
      { st with
          rooms := alSet roomId
            { room with game := some { applyActiveClock now g0 with agreedDraw := true } }
            (alSet roomId { room with game := some (applyActiveClock now g0) } st.rooms)
          drawPending := alDelete roomId st.drawPending } roomId =
      ({ st with
          rooms := alSet roomId
            { room with game := some { applyActiveClock now g0 with agreedDraw := true, lastTickAt := none } }
            (alSet roomId
              { room with game := some { applyActiveClock now g0 with agreedDraw := true } }
              (alSet roomId { room with game := some (applyActiveClock now g0) } st.rooms))
          drawPending := alDelete roomId st.drawPending },
        [Emit.gameState roomId
            { roomId := room.id
              fen := g0.chess.fen
              turn := g0.chess.turn
              isCheck := g0.chess.check
              status := GameStatus.draw
              winnerColor := none
              clockMs := (applyActiveClock now g0).clockMs
              whitePlayer := white
              blackPlayer := black },
          Emit.gameOver roomId
            { roomId := room.id
              fen := g0.chess.fen
              turn := g0.chess.turn
              isCheck := g0.chess.check
              status := GameStatus.draw
              winnerColor := none
              clockMs := (applyActiveClock now g0).clockMs
              whitePlayer := white
              blackPlayer := black }]) := by
    unfold broadcastGameStateM
    rw [alGet_alSet_self]
    simp only [getGameSnapshotM]
    rw [hbcsnap]
    simp [alSet_alSet]
  refine ⟨?_, ?_, ?_, ?_⟩
  · rw [hstep]
  · rw [hstep]
    simp only [hbc]
    refine ⟨{ room with game := some { applyActiveClock now g0 with agreedDraw := true, lastTickAt := none } },
      { applyActiveClock now g0 with agreedDraw := true, lastTickAt := none },
      ?_, rfl, rfl, rfl⟩
    exact alGet_alSet_self _ _ _
  · rw [hstep]
    rw [broadcastGameStateM_fst_drawPending]
    exact alGet_alDelete_self _ _ hnd
  · rw [hstep]
    simp only [hbc]
    refine ⟨{ roomId := room.id, fen := g0.chess.fen, turn := g0.chess.turn,
              isCheck := g0.chess.check, status := GameStatus.draw, winnerColor := none,
              clockMs := (applyActiveClock now g0).clockMs, whitePlayer := white,
              blackPlayer := black }, ?_, rfl, rfl⟩
    simp

/-- A concrete active game for the C1 witness. -/
def c1Game : Game :=
  { chess := Chess.initial, whiteUserId := "a", blackUserId := "b",
    clockMs := { w := 1000, b := 1000 }, lastTickAt := some 0, agreedDraw := false }

/-- A concrete room holding `c1Game`. -/
def c1Room : Room :=
  { id := "R", players := [("a", ⟨"a", "a"⟩), ("b", ⟨"b", "b"⟩)], game := some c1Game }

/-- A concrete state where white ("a") has a pending draw offer. -/
def c1State : ServerState :=
  { rooms := [("R", c1Room)], roomByUserId := [("a", "R"), ("b", "R")],
    rematchAccepted := [], drawPending := [("R", ["a"])] }

/-- The active snapshot of `c1Room` at time 0. -/
def c1Snap : GameSnapshot :=
  { roomId := "R", fen := Chess.initial.fen, turn := Color.w, isCheck := false,
    status := GameStatus.active, winnerColor := none,
    clockMs := { w := 1000, b := 1000 },
    whitePlayer := ⟨"a", "a"⟩, blackPlayer := ⟨"b", "b"⟩ }

/-- Witness for C1: black accepts white's pending draw offer in the concrete
room; the game ends in an agreed draw. -/
theorem C1_drawAcceptEndsGame_witness :
    (drawRespond 0 c1State "b" "b" true).2.2 = [Ack.ok (some ⟨none, some true⟩)] ∧
      (∃ room' g',
        alGet "R" (drawRespond 0 c1State "b" "b" true).1.rooms = some room' ∧
        room'.game = some g' ∧ g'.agreedDraw = true ∧ room'.players = c1Room.players) ∧
      alGet "R" (drawRespond 0 c1State "b" "b" true).1.drawPending = none ∧
      (∃ s', Emit.gameOver "R" s' ∈ (drawRespond 0 c1State "b" "b" true).2.1 ∧
        s'.status = GameStatus.draw ∧ s'.winnerColor = none) :=
  C1_drawAcceptEndsGame 0 c1State "b" "b" "R" c1Room c1Game c1Snap
    rfl rfl rfl (by decide) rfl (Or.inr rfl) (by decide) (by decide)

/-! ### Acknowledgment discipline: every handler invokes its callback exactly
once on every path. -/

theorem roomCreate_ackOnce (online : String → Bool) (uuid0 : String)
    (uuids : List String) (now : Int) (whiteIndex : Nat) (st : ServerState)
    (userId username : String) (payload : Option String)
    (r : ServerState × List Emit × List (Ack RoomState))
    (h : roomCreate online uuid0 uuids now whiteIndex st userId username payload = some r) :
    r.2.2.length = 1 := by
  unfold roomCreate at h
  split at h
  · injection h with h1
    subst h1
    rfl
  · split at h
    · exact Option.noConfusion h
    · injection h with h1
      subst h1
      rfl

theorem roomJoin_ackOnce (online : String → Bool) (uuid0 : String) (now : Int)
    (whiteIndex : Nat) (st : ServerState) (userId username roomIdArg : String) :
    ((roomJoin online uuid0 now whiteIndex st userId username roomIdArg).2.2).length = 1 := by
  unfold roomJoin
  repeat' (first | split | dsimp only)
  all_goals rfl

theorem roomLeave_ackOnce (online : String → Bool) (st : ServerState)
    (userId username : String) :
    ((roomLeave online st userId username).2.2).length = 1 := by
  unfold roomLeave
  repeat' (first | split | dsimp only)
  all_goals rfl

theorem roomStateH_ackOnce (online : String → Bool) (st : ServerState)
    (userId : String) :
    ((roomStateH online st userId).2.2).length = 1 := by
  unfold roomStateH
  repeat' (first | split | dsimp only)
  all_goals rfl

theorem gameStateH_ackOnce (now : Int) (st : ServerState) (userId : String) :
    ((gameStateH now st userId).2.2).length = 1 := by
  unfold gameStateH
  repeat' (first | split | dsimp only)
  all_goals rfl

theorem chessMove_ackOnce (moveImpl : Chess → String → String → Option String → MoveOutcome)
    (now : Int) (st : ServerState) (userId username : String)
    (payloadRoomId fromRaw toRaw : String) (promotion : Option String) :
    ((chessMove moveImpl now st userId username payloadRoomId fromRaw toRaw
      promotion).2.2).length = 1 := by
  unfold chessMove
  repeat' (first | split | dsimp only)
  all_goals rfl

theorem inviteSend_ackOnce (online : String → Bool) (friend : Bool)
    (origin : Option String) (uuid0 : String) (st : ServerState)
    (userId username : String) (toUserIdRaw : Option String) (roomIdArg : Option String) :
    ((inviteSend online friend origin uuid0 st userId username toUserIdRaw
      roomIdArg).2.2).length = 1 := by
  unfold inviteSend
  repeat' (first | split | dsimp only)
  all_goals rfl

theorem rematchRequest_ackOnce (online : String → Bool) (now : Int) (whiteIndex : Nat)
    (st : ServerState) (userId username : String) :
    ((rematchRequest online now whiteIndex st userId username).2.2).length = 1 := by
  unfold rematchRequest
  repeat' (first | split | dsimp only)
  all_goals rfl

theorem rematchRespond_ackOnce (online : String → Bool) (now : Int) (whiteIndex : Nat)
    (st : ServerState) (userId username : String) (accept : Bool) :
    ((rematchRespond online now whiteIndex st userId username accept).2.2).length = 1 := by
  unfold rematchRespond
  repeat' (first | split | dsimp only)
  all_goals rfl

theorem drawRequest_ackOnce (now : Int) (st : ServerState) (userId username : String) :
    ((drawRequest now st userId username).2.2).length = 1 := by
  unfold drawRequest
  repeat' (first | split | dsimp only)
  all_goals rfl

theorem drawRespond_ackOnce (now : Int) (st : ServerState) (userId username : String)
    (accept : Bool) :
    ((drawRespond now st userId username accept).2.2).length = 1 := by
  unfold drawRespond
  repeat' (first | split | dsimp only)
  all_goals rfl

/-- **C4.** Every acknowledgment-bearing client event handler — room:create,
room:join, room:leave, room:state, game:state, chess:move, invite:send,
game:rematch:request, game:rematch:respond, and the spec-modelled
game:draw:request / game:draw:respond — invokes its callback exactly once on
every path (the `Ack` type only offers `{ok:true, data?}` and
`{ok:false, error}`); no event is silently dropped.  For room:create the
statement is conditional on the collision-retry loop terminating within the
modelled UUID supply. -/
theorem C4_ackExactlyOnce :
    (∀ (online : String → Bool) (uuid0 : String) (uuids : List String) (now : Int)
        (whiteIndex : Nat) (st : ServerState) (userId username : String)
        (payload : Option String) (r : ServerState × List Emit × List (Ack RoomState)),
      roomCreate online uuid0 uuids now whiteIndex st userId username payload = some r →
      r.2.2.length = 1) ∧
    (∀ (online : String → Bool) (uuid0 : String) (now : Int) (whiteIndex : Nat)
        (st : ServerState) (userId username roomIdArg : String),
      ((roomJoin online uuid0 now whiteIndex st userId username roomIdArg).2.2).length = 1) ∧
    (∀ (online : String → Bool) (st : ServerState) (userId username : String),
      ((roomLeave online st userId username).2.2).length = 1) ∧
    (∀ (online : String → Bool) (st : ServerState) (userId : String),
      ((roomStateH online st userId).2.2).length = 1) ∧
    (∀ (now : Int) (st : ServerState) (userId : String),
      ((gameStateH now st userId).2.2).length = 1) ∧
    (∀ (moveImpl : Chess → String → String → Option String → MoveOutcome) (now : Int)
        (st : ServerState) (userId username payloadRoomId fromRaw toRaw : String)
        (promotion : Option String),
      ((chessMove moveImpl now st userId username payloadRoomId fromRaw toRaw
        promotion).2.2).length = 1) ∧
    (∀ (online : String → Bool) (friend : Bool) (origin : Option String) (uuid0 : String)
        (st : ServerState) (userId username : String) (toUserIdRaw roomIdArg : Option String),
      ((inviteSend online friend origin uuid0 st userId username toUserIdRaw
        roomIdArg).2.2).length = 1) ∧
    (∀ (online : String → Bool) (now : Int) (whiteIndex : Nat) (st : ServerState)
        (userId username : String),
      ((rematchRequest online now whiteIndex st userId username).2.2).length = 1) ∧
    (∀ (online : String → Bool) (now : Int) (whiteIndex : Nat) (st : ServerState)
        (userId username : String) (accept : Bool),
      ((rematchRespond online now whiteIndex st userId username accept).2.2).length = 1) ∧
    (∀ (now : Int) (st : ServerState) (userId username : String),
      ((drawRequest now st userId username).2.2).length = 1) ∧
    (∀ (now : Int) (st : ServerState) (userId username : String) (accept : Bool),
      ((drawRespond now st userId username accept).2.2).length = 1) :=
  ⟨roomCreate_ackOnce, roomJoin_ackOnce, roomLeave_ackOnce, roomStateH_ackOnce,
    gameStateH_ackOnce, chessMove_ackOnce, inviteSend_ackOnce, rematchRequest_ackOnce,
    rematchRespond_ackOnce, drawRequest_ackOnce, drawRespond_ackOnce⟩

/-- Witness for C4 at concrete inputs (the room:create conjunct's hypothesis
discharged by evaluation on the empty state). -/
theorem C4_ackExactlyOnce_witness :
    ((roomCreate onlineNone "u" [] 0 0 emptyState "a" "a" none).getD
        (emptyState, [], [])).2.2.length = 1 ∧
    ((roomJoin onlineNone "u" 0 0 emptyState "a" "a" "r1").2.2).length = 1 ∧
    ((roomLeave onlineNone emptyState "a" "a").2.2).length = 1 ∧
    ((roomStateH onlineNone emptyState "a").2.2).length = 1 ∧
    ((gameStateH 0 emptyState "a").2.2).length = 1 ∧
    ((chessMove nullMove 0 emptyState "a" "a" "R" "e2" "e4" none).2.2).length = 1 ∧
    ((inviteSend onlineNone false none "u" emptyState "a" "a" none none).2.2).length = 1 ∧
    ((rematchRequest onlineNone 0 0 emptyState "a" "a").2.2).length = 1 ∧
    ((rematchRespond onlineNone 0 0 emptyState "a" "a" true).2.2).length = 1 ∧
    ((drawRequest 0 emptyState "a" "a").2.2).length = 1 ∧
    ((drawRespond 0 emptyState "a" "a" true).2.2).length = 1 :=
  ⟨C4_ackExactlyOnce.1 onlineNone "u" [] 0 0 emptyState "a" "a" none _ rfl,
    C4_ackExactlyOnce.2.1 onlineNone "u" 0 0 emptyState "a" "a" "r1",
    C4_ackExactlyOnce.2.2.1 onlineNone emptyState "a" "a",
    C4_ackExactlyOnce.2.2.2.1 onlineNone emptyState "a",
    C4_ackExactlyOnce.2.2.2.2.1 0 emptyState "a",
    C4_ackExactlyOnce.2.2.2.2.2.1 nullMove 0 emptyState "a" "a" "R" "e2" "e4" none,
    C4_ackExactlyOnce.2.2.2.2.2.2.1 onlineNone false none "u" emptyState "a" "a" none none,
    C4_ackExactlyOnce.2.2.2.2.2.2.2.1 onlineNone 0 0 emptyState "a" "a",
    C4_ackExactlyOnce.2.2.2.2.2.2.2.2.1 onlineNone 0 0 emptyState "a" "a" true,
    C4_ackExactlyOnce.2.2.2.2.2.2.2.2.2.1 0 emptyState "a" "a",
    C4_ackExactlyOnce.2.2.2.2.2.2.2.2.2.2 0 emptyState "a" "a" true⟩

end Knight
